import Mathlib

/-!
Shallow embedding of the AppEEARS job-lifecycle core of this repository:
the token lease (`appeears_tools.AppEEARSTools._refresh_token` /
`_ensure_valid_token`), the point-request submitter (`_submit_point_request`),
the status tracker (`job_tools.check_job_status`), the bundle resolver and
downloader (`_download_task`, `job_tools.list_bundle_files`,
`job_tools.download_job_results`) and the cancellor
(`job_tools.cancel_appears_job`).

Remote responses are modelled as JSON-like values (`JVal`); network and
filesystem interactions are explicit parameters (the response each call
would produce), and every operation additionally returns an `Effects`
record counting the remote calls and directory creations it performed,
so that claims about "no network call" / "no filesystem touch" are
statable.
-/

/-- JSON-like values as returned by `response.json()` in the source. -/
inductive JVal where
  | s (str : String)
  | n (num : Int)
  | arr (items : List JVal)
  | obj (fields : List (String × JVal))
  | null

/-- Python `dict.get(key)`: the value under the key, or `None` when absent.
Dict keys are unique, so first-match lookup is faithful. -/
def dictGet : List (String × JVal) → String → Option JVal
  | [], _ => none
  | (k, v) :: rest, key => if k = key then some v else dictGet rest key

/-- Python falsiness of a JSON value (`if not x`): empty string, zero,
empty list, empty dict and `None` are falsy. -/
def jFalsy : JVal → Bool
  | .s str => str.data.isEmpty
  | .n num => num == 0
  | .arr items => items.isEmpty
  | .obj fields => fields.isEmpty
  | .null => true

/-- Python `str()` of a JSON value, as used by the f-string interpolations in
the source. List and dict renderings are abbreviated: no file identifier or
status value in the modelled flows is a composite value. -/
def pyStr : JVal → String
  | .s str => str
  | .n num => toString num
  | .arr _ => "[...]"
  | .obj _ => "\x7b...\x7d"
  | .null => "None"

/-- Python `str()` of an optional value (`None` when absent). -/
def pyStrOpt : Option JVal → String
  | none => "None"
  | some v => pyStr v

/-- The Python type name of a JSON value, for the
`Unexpected bundle response type` message. -/
def pyType : JVal → String
  | .s _ => "str"
  | .n _ => "int"
  | .arr _ => "list"
  | .obj _ => "dict"
  | .null => "NoneType"

/-- Python `len()`: defined for strings, lists and dicts; numbers and `None`
have no length (`TypeError`). -/
def pyLen : JVal → Option Nat
  | .s str => some str.data.length
  | .n _ => none
  | .arr items => some items.length
  | .obj fields => some fields.length
  | .null => none

/-- Python iteration over a JSON value (`for x in v`): a list yields its
items, a string its characters, a dict its keys; numbers and `None` are not
iterable (`TypeError`). -/
def toIterList : JVal → Except String (List JVal)
  | .arr items => .ok items
  | .s str => .ok (str.data.map (fun c => JVal.s (String.mk [c])))
  | .obj fields => .ok (fields.map (fun kv => JVal.s kv.1))
  | .n _ => .error "int object is not iterable"
  | .null => .error "NoneType object is not iterable"

/-- Lower-casing of one ASCII character, as Python `str.lower` does on the
ASCII status vocabulary the tracker consumes. -/
def lowerAscii (c : Char) : Char :=
  if 'A' ≤ c ∧ c ≤ 'Z' then Char.ofNat (c.toNat + 32) else c

/-- Python `str.lower()` (ASCII case mapping). -/
def pyLower (s : String) : String :=
  String.mk (s.data.map lowerAscii)

/-- `p.data.isPrefixOf s.data`: does `s` start with `p`?  (Python
`str.startswith`, and the formalisation of one path lying inside another.) -/
def strStartsWith (s p : String) : Bool :=
  p.data.isPrefixOf s.data

/-- `os.path.join(a, b)` for POSIX paths, two arguments: an absolute second
component replaces the first; otherwise the components are joined with a
single separator. -/
def pyJoin (a b : String) : String :=
  if strStartsWith b "/" then b
  else if a.data = [] ∨ a.data.getLast? = some '/' then a ++ b
  else a ++ "/" ++ b

/-- `os.path.dirname(p)` for POSIX paths: the prefix up to the last
separator, with trailing separators stripped unless the result is all
separators. -/
def pyDirname (p : String) : String :=
  let l := p.data
  let afterLastSep := (l.reverse.takeWhile (fun c => c ≠ '/')).length
  let head := l.take (l.length - afterLastSep)
  if head = [] then ""
  else if head.all (fun c => c = '/') then String.mk head
  else String.mk ((head.reverse.dropWhile (fun c => c = '/')).reverse)

/-! ## Token lease (`_refresh_token`, `_ensure_valid_token`) -/

/-- The in-memory credential lease: `self.token` and `self.token_expiry`.
The expiry is held as seconds since the epoch (the `datetime` arithmetic of
the source carries over to integer seconds); `none` models an unset field. -/
structure TokenLease where
  token : Option String
  tokenExpiry : Option Int

/-- Python falsiness of the stored token (`not self.token`): absent or
empty. -/
def tokenFalsy : Option String → Bool
  | none => true
  | some t => t.data = []

/-- Five minutes, the safety buffer, in seconds. -/
def bufferSeconds : Int := 300

/-- The parsed body of a successful `POST /login`: the bearer token and the
`expiration` timestamp (ISO-8601 with explicit UTC offset, parsed to epoch
seconds). -/
structure LoginResp where
  token : String
  expirationEpoch : Int

/-- `_refresh_token`: on a successful exchange, store the token and the
parsed expiration minus the five-minute buffer; a 401 is an invalid
credentials failure, any other failure is a generic token failure.  The
login outcome is a parameter: `Except.error code` models an HTTP error with
that status code. -/
def refreshToken (login : Except Int LoginResp) : Except String TokenLease :=
  match login with
  | .error 401 => .error "Invalid AppEEARS credentials"
  | .error _ => .error "Failed to get authentication token"
  | .ok r => .ok { token := some r.token, tokenExpiry := some (r.expirationEpoch - bufferSeconds) }

/-- Does `_ensure_valid_token` take the refresh branch?  Mirrors
`not self.token or not self.token_expiry or now >= self.token_expiry`. -/
def leaseInvalid (now : Int) (st : TokenLease) : Bool :=
  tokenFalsy st.token || st.tokenExpiry.isNone ||
    (match st.tokenExpiry with
     | some t => decide (now ≥ t)
     | none => true)

/-- `_ensure_valid_token`: refresh when the lease is invalid, otherwise keep
the state unchanged.  The second component counts credential-exchange
calls. -/
def ensureValidToken (now : Int) (login : Except Int LoginResp) (st : TokenLease) :
    Except String TokenLease × Nat :=
  if leaseInvalid now st then (refreshToken login, 1) else (.ok st, 0)

/-! ## Status mapping (`check_job_status`, lines 99-107 of `job_tools.py`) -/

/-- The `status_mapping` dict lookup with default `"pending"`, applied to the
lower-cased remote status. -/
def statusMapping (api : String) : String :=
  let l := pyLower api
  if l = "pending" then "pending"
  else if l = "running" then "running"
  else if l = "done" then "completed"
  else if l = "failed" then "failed"
  else if l = "cancelled" then "cancelled"
  else "pending"

/-! ## Effects accounting

Each modelled operation also returns an `Effects` record counting the
externally visible actions it performed: remote calls by endpoint kind, and
`os.makedirs` invocations. -/

/-- Counts of externally visible actions of one operation. -/
structure Effects where
  statusCalls : Nat
  bundleCalls : Nat
  downloadCalls : Nat
  deleteCalls : Nat
  submitCalls : Nat
  mkdirCalls : Nat

/-- No effects. -/
def Effects.zero : Effects := ⟨0, 0, 0, 0, 0, 0⟩

/-- Componentwise sum of effects. -/
def Effects.add (a b : Effects) : Effects :=
  ⟨a.statusCalls + b.statusCalls, a.bundleCalls + b.bundleCalls,
   a.downloadCalls + b.downloadCalls, a.deleteCalls + b.deleteCalls,
   a.submitCalls + b.submitCalls, a.mkdirCalls + b.mkdirCalls⟩

/-- One `GET task/{id}` (status fetch). -/
def effStatus : Effects := ⟨1, 0, 0, 0, 0, 0⟩

/-- One `GET bundle/{task_id}` (bundle listing). -/
def effBundle : Effects := ⟨0, 1, 0, 0, 0, 0⟩

/-- `n` file-download requests `GET bundle/{task_id}/{file_id}`. -/
def effDownloads (n : Nat) : Effects := ⟨0, 0, n, 0, 0, 0⟩

/-- One `DELETE task/{id}`. -/
def effDelete : Effects := ⟨0, 0, 0, 1, 0, 0⟩

/-- One `POST task` (submission). -/
def effSubmit : Effects := ⟨0, 0, 0, 0, 1, 0⟩

/-- One `os.makedirs` call. -/
def effMkdir : Effects := ⟨0, 0, 0, 0, 0, 1⟩

/-! ## Date handling (`_submit_point_request`, lines 128-131) -/

/-- Gregorian leap year. -/
def isLeap (y : Nat) : Bool :=
  y % 4 == 0 && (y % 100 != 0 || y % 400 == 0)

/-- Days in a month of the Gregorian calendar. -/
def daysInMonth (y m : Nat) : Nat :=
  if m = 2 then (if isLeap y then 29 else 28)
  else if m = 4 ∨ m = 6 ∨ m = 9 ∨ m = 11 then 30
  else 31

/-- Python `str.split("-")` on a character list (keeps empty pieces). -/
def splitDash : List Char → List (List Char)
  | [] => [[]]
  | c :: rest =>
    let r := splitDash rest
    if c = '-' then [] :: r
    else
      match r with
      | h :: t => (c :: h) :: t
      | [] => [[c]]

/-- The numeric value of an all-digit character group, or `none` if the
group is empty or contains a non-digit. -/
def digitsToNat (l : List Char) : Option Nat :=
  if l.isEmpty ∨ ¬ l.all Char.isDigit then none
  else some (l.foldl (fun acc c => acc * 10 + (c.toNat - 48)) 0)

/-- `datetime.strptime(s, "%Y-%m-%d")`: exactly three dash-separated digit
groups — a four-digit year, a one- or two-digit month `1..12`, a one- or
two-digit day `1..31` — forming a valid calendar date with year at least 1;
anything else raises `ValueError` (modelled as `none`). -/
def parseYMD (s : String) : Option (Nat × Nat × Nat) :=
  match splitDash s.data with
  | [ys, ms, ds] =>
    match digitsToNat ys, digitsToNat ms, digitsToNat ds with
    | some y, some m, some d =>
      if ys.length = 4 ∧ 1 ≤ y ∧
         (ms.length = 1 ∨ ms.length = 2) ∧ 1 ≤ m ∧ m ≤ 12 ∧
         (ds.length = 1 ∨ ds.length = 2) ∧ 1 ≤ d ∧ d ≤ daysInMonth y m then
        some (y, m, d)
      else none
    | _, _, _ => none
  | _ => none

/-- Zero-padding to two digits, as `strftime` `%m` / `%d` do. -/
def pad2 (n : Nat) : String :=
  if n < 10 then "0" ++ toString n else toString n

/-- `strftime("%m-%d-%Y")` of a parsed date: zero-padded month and day, year
in decimal (CPython on glibc does not zero-pad `%Y`; for the four-digit
years of well-formed input this is the four digits back). -/
def formatMDY (y m d : Nat) : String :=
  pad2 m ++ "-" ++ pad2 d ++ "-" ++ toString y

/-- `strptime` + `strftime` composed: the `YYYY-MM-DD` → `MM-DD-YYYY`
conversion applied to each date string, `none` on `ValueError`. -/
def convertDate (s : String) : Option String :=
  (parseYMD s).map (fun ymd => formatMDY ymd.1 ymd.2.1 ymd.2.2)

/-! ## Job submission (`_submit_point_request`) -/

/-- The task payload built at lines 133-141: dates already converted,
layers and coordinates embedded as given. -/
structure TaskPayload where
  taskType : String
  taskName : String
  startDate : String
  endDate : String
  layers : JVal
  coordinates : JVal

/-- Result envelope of `_submit_point_request`. -/
inductive SubmitResult where
  | ok (taskId : JVal) (message : String)
  | err (message : String)

/-- `_submit_point_request`: convert both dates (a `ValueError` is caught by
the enclosing handler and returned as an error envelope before any request
is made), build the payload, post it, and extract `task_id` from the
response.  `taskPost` is the remote response to the `POST task` call; the
second component is the payload actually transmitted (`none` when no call
was made). -/
def submitPointRequest (layers locations : JVal) (startDate endDate taskName : String)
    (taskPost : Except String JVal) : SubmitResult × Option TaskPayload × Effects :=
  match convertDate startDate with
  | none =>
    (.err ("time data " ++ startDate ++ " does not match format %Y-%m-%d"), none, Effects.zero)
  | some sd =>
    match convertDate endDate with
    | none =>
      (.err ("time data " ++ endDate ++ " does not match format %Y-%m-%d"), none, Effects.zero)
    | some ed =>
      let payload : TaskPayload := ⟨"point", taskName, sd, ed, layers, locations⟩
      match taskPost with
      | .error m => (.err m, some payload, effSubmit)
      | .ok (.obj fields) =>
        match dictGet fields "task_id" with
        | some tid => (.ok tid ("Task submitted! Task ID: " ++ pyStr tid), some payload, effSubmit)
        | none => (.err "KeyError: task_id", some payload, effSubmit)
      | .ok _ => (.err "task response is not subscriptable", some payload, effSubmit)

/-! ## Bundle download (`_download_task`) -/

/-- One successfully downloaded file as recorded in `downloaded_files`
(lines 344-351). -/
structure DFile where
  fileName : String
  filePath : String
  fileId : JVal
  fileSize : Nat

/-- Result envelope of `_download_task` (and, with `taskId` read as
`job_id`, of `download_job_results`). -/
inductive DlResult where
  | ok (message taskId downloadFolder : String) (files : List DFile)
       (fileCount totalSize : Nat)
  | err (message : String)

/-- Environment of one `_download_task` run: the identifier and output path
arguments, whether the output path is an existing directory, and the remote
responses — the task-status fetch, the bundle listing, and the outcome of
each per-file request keyed by the raw `file_id` value (`some size` when the
streamed save succeeds with that many bytes, `none` when the request or the
write raises). -/
structure DlEnv where
  taskId : String
  outputPath : String
  outputPathIsDir : Bool
  statusResp : Except String JVal
  bundleResp : Except String JVal
  fileResp : JVal → Option Nat

/-- Is the fetched task status exactly the string `"done"`?
(`task_status.get("status") != "done"`, line 233.) -/
def isDoneVal : Option JVal → Bool
  | some (.s x) => x == "done"
  | _ => false

/-- Lines 282-287: the per-task folder `task_<id>`, created under the output
path when it is a directory, else under its `dirname`. -/
def taskFolderOf (env : DlEnv) : String :=
  if env.outputPathIsDir then pyJoin env.outputPath ("task_" ++ env.taskId)
  else pyJoin (pyDirname env.outputPath) ("task_" ++ env.taskId)

/-- Lines 250-273: unwrap the bundle response — a bare list is kept, a dict
is unwrapped through its `files` key, else its `data` key, in that order;
a dict with neither key is an unexpected-format error, and any other shape
an unexpected-type error. -/
def unwrapBundle : JVal → Except String JVal
  | .arr items => .ok (.arr items)
  | .obj fields =>
    match dictGet fields "files" with
    | some v => .ok v
    | none =>
      match dictGet fields "data" with
      | some v => .ok v
      | none => .error ("Unexpected bundle response format: " ++ pyStr (.obj fields))
  | v => .error ("Unexpected bundle response type: " ++ pyType v)

/-- Lines 302-319: the `file_id` (as Python `dict.get` yields it, so possibly
`None`) and `file_name` value of one bundle entry — a dict supplies both,
with the name defaulting to `unknown_file_<id>`; a bare string is the id
with generated name `file_<id>`; any other shape is skipped (`none`). -/
def entryIdName : JVal → Option (Option JVal × JVal)
  | .obj fields =>
    some (dictGet fields "file_id",
      (dictGet fields "file_name").getD
        (.s ("unknown_file_" ++ pyStrOpt (dictGet fields "file_id"))))
  | .s str => some (some (.s str), .s ("file_" ++ str))
  | _ => none

/-- Lines 302-358, one loop iteration: the recorded file on success, `none`
when the entry is skipped (unrecognized shape, missing or falsy id) or when
its download attempt fails (the request or the save raises; a non-string
name makes `os.path.join` raise after the request, with the same caught-and-
continue outcome). -/
def procEntry (taskFolder : String) (fileResp : JVal → Option Nat) (e : JVal) :
    Option DFile :=
  match entryIdName e with
  | none => none
  | some (fid, fname) =>
    match fid with
    | none => none
    | some idv =>
      if jFalsy idv then none
      else
        match fileResp idv, fname with
        | some size, .s nm => some ⟨nm, pyJoin taskFolder nm, idv, size⟩
        | _, _ => none

/-- Does processing this entry reach the download request (resolvable,
truthy file id)? -/
def entryDownloadAttempt (e : JVal) : Nat :=
  match entryIdName e with
  | some (some idv, _) => if jFalsy idv then 0 else 1
  | _ => 0

/-- The `downloaded_files` accumulator after the loop over all entries. -/
def downloadedFiles (taskFolder : String) (fileResp : JVal → Option Nat)
    (entries : List JVal) : List DFile :=
  entries.filterMap (procEntry taskFolder fileResp)

/-- Number of download requests issued by the loop. -/
def downloadAttempts (entries : List JVal) : Nat :=
  (entries.map entryDownloadAttempt).sum

/-- `total_size`: the sum of the recorded byte sizes (line 364). -/
def sumSizes (files : List DFile) : Nat :=
  (files.map (fun f => f.fileSize)).sum

/-- `_download_task` from the bundle-unwrap result on (lines 275-377):
reject an empty (falsy) resolved value, create the task folder, run the
download loop, and fail only if no file succeeded. -/
def dlAfterUnwrap (taskId taskFolder : String) (fileResp : JVal → Option Nat)
    (unwrapped : Except String JVal) : DlResult × Effects :=
  match unwrapped with
  | .error m => (.err m, effStatus.add effBundle)
  | .ok bfiles =>
    if jFalsy bfiles then (.err "No files found in bundle", effStatus.add effBundle)
    else
      match toIterList bfiles with
      | .error m => (.err ("Download error: " ++ m),
          (effStatus.add effBundle).add effMkdir)
      | .ok entries =>
        let dls := downloadedFiles taskFolder fileResp entries
        let eff := ((effStatus.add effBundle).add effMkdir).add
          (effDownloads (downloadAttempts entries))
        if dls.isEmpty then (.err "Failed to download any files", eff)
        else
          (.ok ("Downloaded " ++ toString dls.length ++ " files to " ++ taskFolder)
            taskId taskFolder dls dls.length (sumSizes dls), eff)

/-- `_download_task` (lines 198-380): check the task is `done`, list the
bundle, unwrap it, then download.  Raised transport errors are caught by the
enclosing handler as a `Download error:` envelope. -/
def downloadTask (env : DlEnv) : DlResult × Effects :=
  match env.statusResp with
  | .error m => (.err ("Download error: " ++ m), effStatus)
  | .ok (.obj sfields) =>
    if isDoneVal (dictGet sfields "status") then
      match env.bundleResp with
      | .error m => (.err ("Download error: " ++ m), effStatus.add effBundle)
      | .ok bj => dlAfterUnwrap env.taskId (taskFolderOf env) env.fileResp (unwrapBundle bj)
    else
      (.err ("Task is not complete. Current status: " ++
        pyStrOpt (dictGet sfields "status")), effStatus)
  | .ok _ =>
    (.err "Download error: status response has no attribute get", effStatus)

/-! ## Job tools wrappers (`job_tools.py`) -/

/-- Result envelope of `check_job_status`, restricted to the fields the
wrappers read (`job_status`, `api_status`). -/
inductive CheckResult where
  | ok (jobId jobStatus apiStatus : String)
  | err (message : String)

/-- `check_job_status` (lines 79-150): fetch the task status, read its
`status` field with default `"unknown"`, and normalize it through the
status mapping.  A non-dict response or non-string status value raises
inside the handler and yields the error envelope. -/
def checkJobStatus (jobId : String) (statusResp : Except String JVal) :
    CheckResult × Effects :=
  match statusResp with
  | .error m => (.err ("Failed to check job status: " ++ m), effStatus)
  | .ok (.obj fields) =>
    match dictGet fields "status" with
    | some (.s api) => (.ok jobId (statusMapping api) api, effStatus)
    | some _ =>
      (.err "Error checking job status: status value has no attribute lower", effStatus)
    | none => (.ok jobId (statusMapping "unknown") "unknown", effStatus)
  | .ok _ =>
    (.err "Error checking job status: task status has no attribute get", effStatus)

/-- Environment of one `download_job_results` run: the job id, the status
response consumed by its own `check_job_status` call, and the environment of
the inner `_download_task`. -/
structure JobEnv where
  jobId : String
  statusResp : Except String JVal
  dl : DlEnv

/-- `download_job_results` (lines 153-229): require tracked status
`completed` before any bundle call or filesystem action, then delegate to
`_download_task` and re-wrap its result. -/
def downloadJobResults (env : JobEnv) : DlResult × Effects :=
  match checkJobStatus env.jobId env.statusResp with
  | (.err m, eff) => (.err ("Could not check job status: " ++ m), eff)
  | (.ok _ js _, eff) =>
    if js = "completed" then
      match downloadTask env.dl with
      | (.ok _ _ folder files cnt tot, eff2) =>
        (.ok ("Results downloaded successfully to " ++ folder) env.jobId folder
          files cnt tot, eff.add eff2)
      | (.err m, eff2) =>
        (.err ("Failed to download results: " ++ m), eff.add eff2)
    else
      (.err ("Job " ++ env.jobId ++ " is not completed (current status: " ++ js ++ ")"),
        eff)

/-- Result envelope of `list_bundle_files`: the raw files value, its
`len()`, and the message. -/
inductive ListResult where
  | ok (jobId : String) (files : JVal) (fileCount : Nat) (message : String)
  | err (message : String)

/-- Environment of one `list_bundle_files` run. -/
structure ListEnv where
  jobId : String
  statusResp : Except String JVal
  bundleResp : Except String JVal

/-- `list_bundle_files` (lines 232-295): require tracked status `completed`,
then return whatever `_list_bundle_files` fetched — the raw bundle response,
with `len(files)` as the file count (no shape unwrapping and no emptiness
check happen on this path).  A response without a `len()` raises inside the
handler. -/
def listBundleFiles (env : ListEnv) : ListResult × Effects :=
  match checkJobStatus env.jobId env.statusResp with
  | (.err m, eff) => (.err ("Could not check job status: " ++ m), eff)
  | (.ok _ js _, eff) =>
    if js = "completed" then
      match env.bundleResp with
      | .error m => (.err ("Failed to list bundle files: " ++ m), eff.add effBundle)
      | .ok files =>
        match pyLen files with
        | some n =>
          (.ok env.jobId files n
            ("Found " ++ toString n ++ " files in bundle for job " ++ env.jobId),
            eff.add effBundle)
        | none =>
          (.err "Error listing bundle files: object has no len", eff.add effBundle)
    else
      (.err ("Job " ++ env.jobId ++ " is not completed (current status: " ++ js ++ ")"),
        eff)

/-- Result envelope of `cancel_appears_job`. -/
inductive CancelResult where
  | ok (jobId message jobStatus : String)
  | err (message : String)

/-- Environment of one `cancel_appears_job` run: the status response for its
`check_job_status` call and the outcome the `DELETE task/{id}` request would
have (`none` for 2xx, `some code` for an HTTP error with that status). -/
structure CancelEnv where
  jobId : String
  statusResp : Except String JVal
  deleteResp : Option Nat

/-- `cancel_appears_job` (lines 420-480): refuse without a delete request
when the tracked status is terminal; otherwise issue the delete, mapping a
405 to the cancellation-not-supported error and any other HTTP error to the
generic failure. -/
def cancelAppearsJob (env : CancelEnv) : CancelResult × Effects :=
  match checkJobStatus env.jobId env.statusResp with
  | (.err m, eff) => (.err ("Could not check job status: " ++ m), eff)
  | (.ok _ js _, eff) =>
    if js = "completed" ∨ js = "failed" ∨ js = "cancelled" then
      (.err ("Cannot cancel job " ++ env.jobId ++ " - it is already " ++ js), eff)
    else
      match env.deleteResp with
      | none =>
        (.ok env.jobId ("Job " ++ env.jobId ++ " cancelled successfully") "cancelled",
          eff.add effDelete)
      | some code =>
        if code = 405 then
          (.err "Job cancellation is not supported by the AppEEARS API",
            eff.add effDelete)
        else
          (.err ("Failed to cancel job: HTTP " ++ toString code), eff.add effDelete)

/-! ## Claims -/

/-- A string is empty exactly when its character list is. -/
theorem string_eq_empty_iff_data (s : String) : s = "" ↔ s.data = [] := by
  constructor
  · intro h
    rw [h]
  · intro h
    cases s with
    | mk l =>
      simp only [] at h
      cases h
      rfl

/-- C2: `_ensure_valid_token` triggers a credential exchange iff the token
is absent, the expiry is unset, or `now` has reached the stored (buffered)
expiry; for a lease stored by a successful refresh the stored value is the
parsed expiration minus the five-minute buffer, so renewal happens iff
`now ≥ expiration − 5min`, and otherwise the lease is reused unchanged with
zero exchange calls. -/
theorem ensure_valid_renews_iff_buffer_elapsed
    (now e exp2 : Int) (tok tok2 : String) (login : Except Int LoginResp)
    (st : TokenLease) :
    (st = ⟨some tok, some (e - bufferSeconds)⟩ → tok ≠ "" →
      ((now < e - bufferSeconds → ensureValidToken now login st = (Except.ok st, 0)) ∧
       (now ≥ e - bufferSeconds → (ensureValidToken now login st).2 = 1))) ∧
    (st.token = none → (ensureValidToken now login st).2 = 1) ∧
    (st.tokenExpiry = none → (ensureValidToken now login st).2 = 1) ∧
    refreshToken (Except.ok ⟨tok2, exp2⟩) =
      Except.ok ⟨some tok2, some (exp2 - bufferSeconds)⟩ := by
  refine ⟨?_, ?_, ?_, rfl⟩
  · intro hst htok
    have hdata : ¬ tok.data = [] := fun h => htok ((string_eq_empty_iff_data tok).2 h)
    subst hst
    constructor
    · intro hlt
      simp [ensureValidToken, leaseInvalid, tokenFalsy, hdata, not_le.2 hlt]
    · intro hge
      simp [ensureValidToken, leaseInvalid, tokenFalsy, hdata, hge]
  · intro h
    cases st with
    | mk t x =>
      cases h
      simp [ensureValidToken, leaseInvalid, tokenFalsy]
  · intro h
    cases st with
    | mk t x =>
      cases h
      cases t with
      | none => simp [ensureValidToken, leaseInvalid, tokenFalsy]
      | some tk => simp [ensureValidToken, leaseInvalid, tokenFalsy]

/-- Witness for C2 at concrete inputs: expiration 400, buffer 300; at
`now = 0` the lease is reused with zero exchange calls, at `now = 100` a
renewal is triggered, and a successful refresh stores `1000 − 300`. -/
theorem ensure_valid_renews_iff_buffer_elapsed_witness :
    ensureValidToken 0 (Except.ok ⟨"t2", 1000⟩) ⟨some "t", some 100⟩ =
      (Except.ok ⟨some "t", some 100⟩, 0) ∧
    (ensureValidToken 100 (Except.ok ⟨"t2", 1000⟩) ⟨some "t", some 100⟩).2 = 1 ∧
    refreshToken (Except.ok ⟨"t2", 1000⟩) = Except.ok ⟨some "t2", some 700⟩ := by
  have h100 : (100 : Int) = 400 - bufferSeconds := by decide
  refine ⟨?_, ?_, ?_⟩
  · exact ((ensure_valid_renews_iff_buffer_elapsed 0 400 1000 "t" "t2"
      (Except.ok ⟨"t2", 1000⟩) ⟨some "t", some 100⟩).1
      (by rw [h100]) (by decide)).1 (by decide)
  · exact ((ensure_valid_renews_iff_buffer_elapsed 100 400 1000 "t" "t2"
      (Except.ok ⟨"t2", 1000⟩) ⟨some "t", some 100⟩).1
      (by rw [h100]) (by decide)).2 (by decide)
  · have h := (ensure_valid_renews_iff_buffer_elapsed 0 400 1000 "t" "t2"
      (Except.ok ⟨"t2", 1000⟩) ⟨some "t", some 100⟩).2.2.2
    rw [h]
    have : (700 : Int) = 1000 - bufferSeconds := by decide
    rw [this]

/-- C3: the status mapping is total — every remote string yields one of the
five internal statuses, each of the five remote words maps (in any letter
case) to its internal counterpart, and every unrecognized string maps to
`pending`, never to `failed`. -/
theorem status_mapping_total (s : String) :
    statusMapping s ∈ ["pending", "running", "completed", "failed", "cancelled"] ∧
    (pyLower s = "pending" → statusMapping s = "pending") ∧
    (pyLower s = "running" → statusMapping s = "running") ∧
    (pyLower s = "done" → statusMapping s = "completed") ∧
    (pyLower s = "failed" → statusMapping s = "failed") ∧
    (pyLower s = "cancelled" → statusMapping s = "cancelled") ∧
    (pyLower s ≠ "pending" → pyLower s ≠ "running" → pyLower s ≠ "done" →
      pyLower s ≠ "failed" → pyLower s ≠ "cancelled" →
      statusMapping s = "pending") := by
  unfold statusMapping
  refine ⟨?_, ?_, ?_, ?_, ?_, ?_, ?_⟩ <;>
    · simp only []
      split <;> simp_all <;> (try split) <;> simp_all <;> (try split) <;>
        simp_all <;> (try split) <;> simp_all <;> (try split) <;> simp_all

/-- Witness for C3: `"DONE"` maps to `completed`, the unrecognized
`"queued"` maps to `pending`. -/
theorem status_mapping_total_witness :
    statusMapping "DONE" = "completed" ∧ statusMapping "queued" = "pending" :=
  ⟨(status_mapping_total "DONE").2.2.2.1 (by decide),
   (status_mapping_total "queued").2.2.2.2.2.2 (by decide) (by decide) (by decide)
     (by decide) (by decide)⟩

/-- Character-list concatenation under string append. -/
theorem str_data_append (a b : String) : (a ++ b).data = a.data ++ b.data := by
  cases a
  cases b
  rfl

/-- A prefix of a list is a prefix of any right extension. -/
theorem isPrefixOf_append_right (l : List Char) :
    ∀ m k : List Char, l.isPrefixOf m → l.isPrefixOf (m ++ k) := by
  induction l with
  | nil =>
    intro m k _
    simp only [List.isPrefixOf]
  | cons c cs ih =>
    intro m k h
    cases m with
    | nil =>
      simp only [List.isPrefixOf] at h
      exact absurd h (by decide)
    | cons cm ms =>
      rw [List.cons_append]
      simp only [List.isPrefixOf, Bool.and_eq_true] at h ⊢
      exact ⟨h.1, ih ms k h.2⟩

/-- Every list is a prefix of itself. -/
theorem isPrefixOf_self (l : List Char) : l.isPrefixOf l := by
  induction l with
  | nil => simp only [List.isPrefixOf]
  | cons c cs ih =>
    simp only [List.isPrefixOf, Bool.and_eq_true]
    exact ⟨by simp, ih⟩

/-- A string always starts with itself extended on the right. -/
theorem strStartsWith_append_self (a b : String) :
    strStartsWith (a ++ b) a = true := by
  unfold strStartsWith
  rw [str_data_append]
  exact isPrefixOf_append_right _ _ _ (isPrefixOf_self a.data)

/-- C5: when the tracked status maps to anything but `completed`, both
`download_job_results` and `list_bundle_files` fail with the job-not-ready
error after the single status fetch: no bundle-listing call is made, no
directory is created, and no file download is attempted. -/
theorem not_ready_blocks_bundle_and_fs
    (jobId api : String) (sfields : List (String × JVal)) (dlenv : DlEnv)
    (bresp : Except String JVal)
    (hl : dictGet sfields "status" = some (JVal.s api))
    (hm : statusMapping api ≠ "completed") :
    downloadJobResults ⟨jobId, Except.ok (JVal.obj sfields), dlenv⟩ =
      (DlResult.err ("Job " ++ jobId ++ " is not completed (current status: " ++
        statusMapping api ++ ")"), effStatus) ∧
    listBundleFiles ⟨jobId, Except.ok (JVal.obj sfields), bresp⟩ =
      (ListResult.err ("Job " ++ jobId ++ " is not completed (current status: " ++
        statusMapping api ++ ")"), effStatus) ∧
    effStatus.bundleCalls = 0 ∧ effStatus.mkdirCalls = 0 ∧
    effStatus.downloadCalls = 0 := by
  refine ⟨?_, ?_, rfl, rfl, rfl⟩
  · simp [downloadJobResults, checkJobStatus, hl, hm]
  · simp [listBundleFiles, checkJobStatus, hl, hm]

/-- Witness for C5: a job whose remote status is `running`. -/
theorem not_ready_blocks_bundle_and_fs_witness :
    downloadJobResults ⟨"j1", Except.ok (JVal.obj [("status", JVal.s "running")]),
      ⟨"j1", "/tmp", true, Except.ok JVal.null, Except.ok JVal.null, fun _ => none⟩⟩ =
      (DlResult.err "Job j1 is not completed (current status: running)", effStatus) ∧
    listBundleFiles ⟨"j1", Except.ok (JVal.obj [("status", JVal.s "running")]),
      Except.ok JVal.null⟩ =
      (ListResult.err "Job j1 is not completed (current status: running)", effStatus) ∧
    effStatus.bundleCalls = 0 ∧ effStatus.mkdirCalls = 0 ∧
    effStatus.downloadCalls = 0 := by
  have h := not_ready_blocks_bundle_and_fs "j1" "running"
    [("status", JVal.s "running")]
    ⟨"j1", "/tmp", true, Except.ok JVal.null, Except.ok JVal.null, fun _ => none⟩
    (Except.ok JVal.null) (by simp [dictGet]) (by decide)
  simpa [statusMapping, pyLower, lowerAscii] using h

/-- C7: well-formed `YYYY-MM-DD` dates are converted to the remote
`MM-DD-YYYY` representation and transmitted in the task payload; a malformed
date fails with the validation error envelope with the payload never built
and zero remote calls. -/
theorem submit_converts_dates_before_any_call
    (layers locations : JVal) (taskName sd ed : String)
    (post : Except String JVal) (y m d y2 m2 d2 : Nat) :
    (parseYMD sd = some (y, m, d) → parseYMD ed = some (y2, m2, d2) →
      (submitPointRequest layers locations sd ed taskName post).2.1 =
        some ⟨"point", taskName, formatMDY y m d, formatMDY y2 m2 d2,
          layers, locations⟩ ∧
      (submitPointRequest layers locations sd ed taskName post).2.2 = effSubmit) ∧
    (parseYMD sd = none →
      submitPointRequest layers locations sd ed taskName post =
        (SubmitResult.err ("time data " ++ sd ++ " does not match format %Y-%m-%d"),
         none, Effects.zero)) ∧
    (parseYMD ed = none →
      (submitPointRequest layers locations sd ed taskName post).2.1 = none ∧
      (submitPointRequest layers locations sd ed taskName post).2.2 = Effects.zero) := by
  refine ⟨?_, ?_, ?_⟩
  · intro h1 h2
    unfold submitPointRequest convertDate
    rw [h1, h2]
    cases post with
    | error m => simp
    | ok j =>
      cases j <;> simp <;>
        (rename_i fields; cases hdg : dictGet fields "task_id" <;> simp [hdg])
  · intro h1
    unfold submitPointRequest convertDate
    rw [h1]
    simp
  · intro h2
    unfold submitPointRequest convertDate
    rw [h2]
    cases hp : parseYMD sd <;> simp

/-- Witness for C7: `2020-01-15`/`2021-12-31` are transmitted as
`01-15-2020`/`12-31-2021`; the malformed `15-01-2020` yields the error
envelope with no payload and zero calls. -/
theorem submit_converts_dates_before_any_call_witness :
    (submitPointRequest (JVal.arr []) (JVal.arr []) "2020-01-15" "2021-12-31" "T"
      (Except.ok (JVal.obj [("task_id", JVal.s "tid1")]))).2.1 =
      some ⟨"point", "T", "01-15-2020", "12-31-2021", JVal.arr [], JVal.arr []⟩ ∧
    submitPointRequest (JVal.arr []) (JVal.arr []) "15-01-2020" "2021-12-31" "T"
      (Except.ok (JVal.obj [("task_id", JVal.s "tid1")])) =
      (SubmitResult.err "time data 15-01-2020 does not match format %Y-%m-%d",
       none, Effects.zero) := by
  constructor
  · exact ((submit_converts_dates_before_any_call (JVal.arr []) (JVal.arr [])
      "T" "2020-01-15" "2021-12-31"
      (Except.ok (JVal.obj [("task_id", JVal.s "tid1")]))
      2020 1 15 2021 12 31).1 (by decide) (by decide)).1
  · have h := (submit_converts_dates_before_any_call (JVal.arr []) (JVal.arr [])
      "T" "15-01-2020" "2021-12-31"
      (Except.ok (JVal.obj [("task_id", JVal.s "tid1")]))
      0 0 0 0 0 0).2.1 (by decide)
    simpa using h

/-- C1: for a completed job with a nonempty bundle where some file fails,
`_download_task` does not abort — the failed entry is simply absent and
every other entry is still processed; the success result lists exactly the
files that downloaded, with `file_count` their number; and when no file at
all succeeds the result is the `Failed to download any files` error. -/
theorem download_partial_failure_tolerant
    (taskId out : String) (isDir : Bool) (sfields : List (String × JVal))
    (fr : JVal → Option Nat) (l : List JVal) (tf : String)
    (hs : dictGet sfields "status" = some (JVal.s "done"))
    (hne : l ≠ [])
    (htf : tf = taskFolderOf ⟨taskId, out, isDir, Except.ok (JVal.obj sfields),
      Except.ok (JVal.arr l), fr⟩)
    (hfail : ∃ e ∈ l, procEntry tf fr e = none) :
    (downloadedFiles tf fr l ≠ [] →
      downloadTask ⟨taskId, out, isDir, Except.ok (JVal.obj sfields),
        Except.ok (JVal.arr l), fr⟩ =
        (DlResult.ok ("Downloaded " ++ toString (downloadedFiles tf fr l).length ++
            " files to " ++ tf) taskId tf (downloadedFiles tf fr l)
          (downloadedFiles tf fr l).length (sumSizes (downloadedFiles tf fr l)),
         ((effStatus.add effBundle).add effMkdir).add
           (effDownloads (downloadAttempts l)))) ∧
    (downloadedFiles tf fr l = [] →
      (downloadTask ⟨taskId, out, isDir, Except.ok (JVal.obj sfields),
        Except.ok (JVal.arr l), fr⟩).1 =
        DlResult.err "Failed to download any files") ∧
    (∀ pre e post, l = pre ++ e :: post → procEntry tf fr e = none →
      downloadedFiles tf fr l = downloadedFiles tf fr pre ++ downloadedFiles tf fr post) := by
  have hdone : isDoneVal (dictGet sfields "status") = true := by
    rw [hs]
    rfl
  have hle : l.isEmpty = false := by
    cases l with
    | nil => exact absurd rfl hne
    | cons a as => rfl
  have step1 : downloadTask ⟨taskId, out, isDir, Except.ok (JVal.obj sfields),
      Except.ok (JVal.arr l), fr⟩ =
      dlAfterUnwrap taskId tf fr (Except.ok (JVal.arr l)) := by
    rw [htf]
    unfold downloadTask
    simp only [hdone]
    rfl
  have step2 : dlAfterUnwrap taskId tf fr (Except.ok (JVal.arr l)) =
      if (downloadedFiles tf fr l).isEmpty then
        (DlResult.err "Failed to download any files",
         ((effStatus.add effBundle).add effMkdir).add
           (effDownloads (downloadAttempts l)))
      else
        (DlResult.ok ("Downloaded " ++ toString (downloadedFiles tf fr l).length ++
            " files to " ++ tf) taskId tf (downloadedFiles tf fr l)
          (downloadedFiles tf fr l).length (sumSizes (downloadedFiles tf fr l)),
         ((effStatus.add effBundle).add effMkdir).add
           (effDownloads (downloadAttempts l))) := by
    unfold dlAfterUnwrap
    simp only [jFalsy, hle, Bool.false_eq_true, if_false, toIterList]
  refine ⟨?_, ?_, ?_⟩
  · intro hnz
    have hdlse : (downloadedFiles tf fr l).isEmpty = false := by
      cases hdl : downloadedFiles tf fr l with
      | nil => exact absurd hdl hnz
      | cons a as => rfl
    rw [step1, step2, hdlse]
    simp only [Bool.false_eq_true, if_false]
  · intro hz
    have hdlse : (downloadedFiles tf fr l).isEmpty = true := by
      rw [hz]
      rfl
    rw [step1, step2, hdlse]
    simp only [if_true]
  · intro pre e post hsplit hnone
    rw [hsplit]
    simp only [downloadedFiles, List.filterMap_append, List.filterMap_cons, hnone]

/-- Witness for C1: the spec's three-file scenario — file `f2` fails, the
result lists files `f1` and `f3` with `file_count = 2`; and the all-fail
scenario yields the aggregate error. -/
theorem download_partial_failure_tolerant_witness :
    downloadTask ⟨"j1", "/tmp", true, Except.ok (JVal.obj [("status", JVal.s "done")]),
      Except.ok (JVal.arr
        [JVal.obj [("file_id", JVal.s "f1"), ("file_name", JVal.s "a.csv")],
         JVal.obj [("file_id", JVal.s "f2"), ("file_name", JVal.s "b.csv")],
         JVal.obj [("file_id", JVal.s "f3"), ("file_name", JVal.s "c.csv")]]),
      fun v => match v with
        | JVal.s idv => if idv = "f2" then none else some 3
        | _ => none⟩ =
      (DlResult.ok "Downloaded 2 files to /tmp/task_j1" "j1" "/tmp/task_j1"
        [⟨"a.csv", "/tmp/task_j1/a.csv", JVal.s "f1", 3⟩,
         ⟨"c.csv", "/tmp/task_j1/c.csv", JVal.s "f3", 3⟩] 2 6,
       ⟨1, 1, 3, 0, 0, 1⟩) ∧
    (downloadTask ⟨"j1", "/tmp", true,
      Except.ok (JVal.obj [("status", JVal.s "done")]),
      Except.ok (JVal.arr
        [JVal.obj [("file_id", JVal.s "f1"), ("file_name", JVal.s "a.csv")],
         JVal.obj [("file_id", JVal.s "f2"), ("file_name", JVal.s "b.csv")],
         JVal.obj [("file_id", JVal.s "f3"), ("file_name", JVal.s "c.csv")]]),
      fun _ => none⟩).1 = DlResult.err "Failed to download any files" := by
  constructor
  · have h := (download_partial_failure_tolerant "j1" "/tmp" true
      [("status", JVal.s "done")]
      (fun v => match v with
        | JVal.s idv => if idv = "f2" then none else some 3
        | _ => none)
      [JVal.obj [("file_id", JVal.s "f1"), ("file_name", JVal.s "a.csv")],
       JVal.obj [("file_id", JVal.s "f2"), ("file_name", JVal.s "b.csv")],
       JVal.obj [("file_id", JVal.s "f3"), ("file_name", JVal.s "c.csv")]]
      "/tmp/task_j1" rfl (by simp) rfl
      ⟨JVal.obj [("file_id", JVal.s "f2"), ("file_name", JVal.s "b.csv")],
       by simp, rfl⟩).1 (by intro h; exact absurd h (by simp [downloadedFiles, procEntry, entryIdName, dictGet, jFalsy, pyJoin, strStartsWith]))
    rw [h]
    rfl
  · have h := (download_partial_failure_tolerant "j1" "/tmp" true
      [("status", JVal.s "done")] (fun _ => none)
      [JVal.obj [("file_id", JVal.s "f1"), ("file_name", JVal.s "a.csv")],
       JVal.obj [("file_id", JVal.s "f2"), ("file_name", JVal.s "b.csv")],
       JVal.obj [("file_id", JVal.s "f3"), ("file_name", JVal.s "c.csv")]]
      "/tmp/task_j1" rfl (by simp) rfl
      ⟨JVal.obj [("file_id", JVal.s "f1"), ("file_name", JVal.s "a.csv")],
       by simp, rfl⟩).2.1 rfl
    rw [h]

/-- Counterexample to C4: the file-listing operation (`list_bundle_files`)
does not enforce the three bundle shapes — given the unrecognized shape
`\x7b"foo": [...]\x7d` it returns a success envelope (with `len` of the dict as
the file count), not an unexpected-format error. -/
theorem list_bundle_files_accepts_unknown_shape :
    listBundleFiles ⟨"j1", Except.ok (JVal.obj [("status", JVal.s "done")]),
      Except.ok (JVal.obj [("foo", JVal.arr [JVal.s "a"])])⟩ =
      (ListResult.ok "j1" (JVal.obj [("foo", JVal.arr [JVal.s "a"])]) 1
        "Found 1 files in bundle for job j1", effStatus.add effBundle) := rfl

/-- C4 as amended: only the listing step inside `_download_task` unwraps the
three shapes — bare list, `files` key, `data` key, in that priority order —
yielding identical results for the three, and rejects any other shape as a
fatal unexpected-format (dict without either key) or unexpected-type
(non-list, non-dict) error; `list_bundle_files` instead passes any response
with a `len()` through as a success envelope without shape checking. -/
theorem bundle_shape_tolerance_download_only
    (taskId out jobId : String) (isDir : Bool) (sfields : List (String × JVal))
    (fr : JVal → Option Nat) (l : List JVal) (v2 : JVal)
    (rest : List (String × JVal))
    (hs : dictGet sfields "status" = some (JVal.s "done")) :
    (downloadTask ⟨taskId, out, isDir, Except.ok (JVal.obj sfields),
        Except.ok (JVal.obj [("files", JVal.arr l)]), fr⟩ =
      downloadTask ⟨taskId, out, isDir, Except.ok (JVal.obj sfields),
        Except.ok (JVal.arr l), fr⟩) ∧
    (downloadTask ⟨taskId, out, isDir, Except.ok (JVal.obj sfields),
        Except.ok (JVal.obj [("data", JVal.arr l)]), fr⟩ =
      downloadTask ⟨taskId, out, isDir, Except.ok (JVal.obj sfields),
        Except.ok (JVal.arr l), fr⟩) ∧
    (downloadTask ⟨taskId, out, isDir, Except.ok (JVal.obj sfields),
        Except.ok (JVal.obj (("files", JVal.arr l) :: ("data", v2) :: rest)), fr⟩ =
      downloadTask ⟨taskId, out, isDir, Except.ok (JVal.obj sfields),
        Except.ok (JVal.arr l), fr⟩) ∧
    (∀ fields, dictGet fields "files" = none → dictGet fields "data" = none →
      (downloadTask ⟨taskId, out, isDir, Except.ok (JVal.obj sfields),
        Except.ok (JVal.obj fields), fr⟩).1 =
        DlResult.err ("Unexpected bundle response format: " ++ pyStr (JVal.obj fields))) ∧
    (∀ k : Int, (downloadTask ⟨taskId, out, isDir, Except.ok (JVal.obj sfields),
        Except.ok (JVal.n k), fr⟩).1 =
        DlResult.err "Unexpected bundle response type: int") ∧
    ((downloadTask ⟨taskId, out, isDir, Except.ok (JVal.obj sfields),
        Except.ok JVal.null, fr⟩).1 =
        DlResult.err "Unexpected bundle response type: NoneType") ∧
    (∀ b nb, pyLen b = some nb →
      listBundleFiles ⟨jobId, Except.ok (JVal.obj sfields), Except.ok b⟩ =
        (ListResult.ok jobId b nb
          ("Found " ++ toString nb ++ " files in bundle for job " ++ jobId),
         effStatus.add effBundle)) := by
  have hdone : isDoneVal (dictGet sfields "status") = true := by
    rw [hs]
    rfl
  refine ⟨?_, ?_, ?_, ?_, ?_, ?_, ?_⟩
  · simp only [downloadTask, hdone, eq_self_iff_true, if_true]
    rfl
  · simp only [downloadTask, hdone, eq_self_iff_true, if_true]
    rfl
  · simp only [downloadTask, hdone, eq_self_iff_true, if_true]
    rfl
  · intro fields h1 h2
    simp only [downloadTask, hdone, eq_self_iff_true, if_true]
    simp only [unwrapBundle]
    rw [h1, h2]
    rfl
  · intro k
    simp only [downloadTask, hdone, eq_self_iff_true, if_true]
    rfl
  · simp only [downloadTask, hdone, eq_self_iff_true, if_true]
    rfl
  · intro b nb hb
    have hcm : statusMapping "done" = "completed" := rfl
    simp [listBundleFiles, checkJobStatus, hs, hcm, hb]

/-- Witness for C4 at concrete inputs: the wrapped `files` shape downloads
identically to the bare list, and the unknown `foo` shape is a fatal
unexpected-format error in the download path. -/
theorem bundle_shape_tolerance_download_only_witness :
    downloadTask ⟨"j1", "/tmp", true, Except.ok (JVal.obj [("status", JVal.s "done")]),
      Except.ok (JVal.obj [("files", JVal.arr [JVal.s "a"])]), fun _ => some 2⟩ =
    downloadTask ⟨"j1", "/tmp", true, Except.ok (JVal.obj [("status", JVal.s "done")]),
      Except.ok (JVal.arr [JVal.s "a"]), fun _ => some 2⟩ ∧
    (downloadTask ⟨"j1", "/tmp", true, Except.ok (JVal.obj [("status", JVal.s "done")]),
      Except.ok (JVal.obj [("foo", JVal.arr [JVal.s "a"])]), fun _ => some 2⟩).1 =
      DlResult.err ("Unexpected bundle response format: " ++
        pyStr (JVal.obj [("foo", JVal.arr [JVal.s "a"])])) :=
  ⟨(bundle_shape_tolerance_download_only "j1" "/tmp" "j1" true
      [("status", JVal.s "done")] (fun _ => some 2) [JVal.s "a"] (JVal.arr []) []
      rfl).1,
   (bundle_shape_tolerance_download_only "j1" "/tmp" "j1" true
      [("status", JVal.s "done")] (fun _ => some 2) [JVal.s "a"] (JVal.arr []) []
      rfl).2.2.2.1 [("foo", JVal.arr [JVal.s "a"])] rfl rfl⟩

/-- Counterexample to C6: `list_bundle_files` reports an empty resolved
bundle of a completed job as a success with `file_count = 0`, not as an
empty-bundle error. -/
theorem list_bundle_files_empty_success :
    listBundleFiles ⟨"j1", Except.ok (JVal.obj [("status", JVal.s "done")]),
      Except.ok (JVal.arr [])⟩ =
      (ListResult.ok "j1" (JVal.arr []) 0 "Found 0 files in bundle for job j1",
       effStatus.add effBundle) := rfl

/-- C6 as amended: only `_download_task` treats an empty resolved bundle
(bare or wrapped) of a completed job as the fatal `No files found in bundle`
error; `list_bundle_files` returns an empty success envelope instead. -/
theorem empty_bundle_fatal_in_download_only
    (taskId out jobId : String) (isDir : Bool) (sfields : List (String × JVal))
    (fr : JVal → Option Nat)
    (hs : dictGet sfields "status" = some (JVal.s "done")) :
    ((downloadTask ⟨taskId, out, isDir, Except.ok (JVal.obj sfields),
        Except.ok (JVal.arr []), fr⟩).1 = DlResult.err "No files found in bundle") ∧
    ((downloadTask ⟨taskId, out, isDir, Except.ok (JVal.obj sfields),
        Except.ok (JVal.obj [("files", JVal.arr [])]), fr⟩).1 =
        DlResult.err "No files found in bundle") ∧
    (listBundleFiles ⟨jobId, Except.ok (JVal.obj sfields), Except.ok (JVal.arr [])⟩ =
      (ListResult.ok jobId (JVal.arr []) 0
        ("Found 0 files in bundle for job " ++ jobId), effStatus.add effBundle)) := by
  have hdone : isDoneVal (dictGet sfields "status") = true := by
    rw [hs]
    rfl
  have hcm : statusMapping "done" = "completed" := rfl
  refine ⟨?_, ?_, ?_⟩
  · simp only [downloadTask, hdone, eq_self_iff_true, if_true]
    rfl
  · simp only [downloadTask, hdone, eq_self_iff_true, if_true]
    rfl
  · simp [listBundleFiles, checkJobStatus, hs, hcm, pyLen]
    rfl

/-- Witness for C6: a completed job with an empty bundle — the download is
the fatal error, the listing a zero-file success. -/
theorem empty_bundle_fatal_in_download_only_witness :
    ((downloadTask ⟨"j2", "/tmp", true, Except.ok (JVal.obj [("status", JVal.s "done")]),
        Except.ok (JVal.arr []), fun _ => none⟩).1 =
        DlResult.err "No files found in bundle") ∧
    (listBundleFiles ⟨"j2", Except.ok (JVal.obj [("status", JVal.s "done")]),
        Except.ok (JVal.arr [])⟩ =
      (ListResult.ok "j2" (JVal.arr []) 0 "Found 0 files in bundle for job j2",
       effStatus.add effBundle)) := by
  have h := empty_bundle_fatal_in_download_only "j2" "/tmp" "j2" true
    [("status", JVal.s "done")] (fun _ => none) rfl
  refine ⟨h.1, ?_⟩
  rw [h.2.2]
  rfl

/-- The generic cancel-failure message can never coincide with the
405-specific cancellation-unsupported message, whatever the status code
rendering. -/
theorem failed_cancel_msg_ne (x : String) :
    ("Failed to cancel job: HTTP " ++ x) ≠
      "Job cancellation is not supported by the AppEEARS API" := by
  intro h
  have h1 : strStartsWith ("Failed to cancel job: HTTP " ++ x) "Failed" = true := by
    unfold strStartsWith
    rw [str_data_append]
    exact isPrefixOf_append_right _ _ _ (by decide)
  rw [h] at h1
  have h2 : strStartsWith "Job cancellation is not supported by the AppEEARS API"
      "Failed" = false := by decide
  rw [h2] at h1
  exact Bool.noConfusion h1

/-- Counterexample to C8: refusing to cancel a job whose remote status is
`done` (tracked `completed`) is not free of network calls — the effects
record of the refusal shows exactly one status-fetch network call
(`GET task/{id}`), made before the local refusal. -/
theorem cancel_terminal_still_fetches_status :
    cancelAppearsJob ⟨"j1", Except.ok (JVal.obj [("status", JVal.s "done")]), none⟩ =
      (CancelResult.err "Cannot cancel job j1 - it is already completed", effStatus) ∧
    effStatus.statusCalls = 1 := ⟨rfl, rfl⟩

/-- C8 as amended: for a terminal tracked status, `cancel_appears_job`
refuses with the already-terminal error and issues no `DELETE` request
(though the status fetch that determined the tracked status is one network
call); for a non-terminal job, a 405 on the delete maps to the
cancellation-unsupported error, which no generic HTTP failure message can
equal. -/
theorem cancel_refuses_terminal_no_delete
    (jobId api : String) (sfields : List (String × JVal)) (del : Option Nat)
    (c : Nat) (hl : dictGet sfields "status" = some (JVal.s api)) :
    (statusMapping api = "completed" ∨ statusMapping api = "failed" ∨
        statusMapping api = "cancelled" →
      cancelAppearsJob ⟨jobId, Except.ok (JVal.obj sfields), del⟩ =
        (CancelResult.err ("Cannot cancel job " ++ jobId ++ " - it is already " ++
          statusMapping api), effStatus) ∧
      effStatus.deleteCalls = 0 ∧ effStatus.statusCalls = 1) ∧
    (¬ (statusMapping api = "completed" ∨ statusMapping api = "failed" ∨
        statusMapping api = "cancelled") →
      (cancelAppearsJob ⟨jobId, Except.ok (JVal.obj sfields), some 405⟩).1 =
        CancelResult.err "Job cancellation is not supported by the AppEEARS API" ∧
      (c ≠ 405 →
        (cancelAppearsJob ⟨jobId, Except.ok (JVal.obj sfields), some c⟩).1 =
          CancelResult.err ("Failed to cancel job: HTTP " ++ toString c)) ∧
      ("Failed to cancel job: HTTP " ++ toString c) ≠
        "Job cancellation is not supported by the AppEEARS API") := by
  constructor
  · intro ht
    refine ⟨?_, rfl, rfl⟩
    simp only [cancelAppearsJob, checkJobStatus, hl]
    rw [if_pos ht]
  · intro hnt
    refine ⟨?_, ?_, failed_cancel_msg_ne (toString c)⟩
    · simp only [cancelAppearsJob, checkJobStatus, hl]
      rw [if_neg hnt]
      simp
    · intro hc
      simp only [cancelAppearsJob, checkJobStatus, hl, hc]
      rw [if_neg hnt]
      simp

/-- Witness for C8: remote status `done` refuses with one status call and no
delete; remote status `running` with a 405 delete response maps to the
unsupported error, and a 500 to the distinct generic failure. -/
theorem cancel_refuses_terminal_no_delete_witness :
    cancelAppearsJob ⟨"j3", Except.ok (JVal.obj [("status", JVal.s "done")]), none⟩ =
      (CancelResult.err "Cannot cancel job j3 - it is already completed", effStatus) ∧
    (cancelAppearsJob ⟨"j3", Except.ok (JVal.obj [("status", JVal.s "running")]),
        some 405⟩).1 =
      CancelResult.err "Job cancellation is not supported by the AppEEARS API" ∧
    (cancelAppearsJob ⟨"j3", Except.ok (JVal.obj [("status", JVal.s "running")]),
        some 500⟩).1 =
      CancelResult.err "Failed to cancel job: HTTP 500" := by
  have hdone := (cancel_refuses_terminal_no_delete "j3" "done"
    [("status", JVal.s "done")] none 500 rfl).1 (Or.inl rfl)
  have hrun := (cancel_refuses_terminal_no_delete "j3" "running"
    [("status", JVal.s "running")] none 500 rfl).2 (by decide)
  refine ⟨?_, hrun.1, ?_⟩
  · rw [hdone.1]
    rfl
  · rw [hrun.2.1 (by decide)]
    rfl

/-- Counterexample to C9: a dict-shaped entry with absent file name is
defaulted to `unknown_file_<id>`, not `file_<id>`. -/
theorem dict_entry_default_name_unknown_file :
    (downloadTask ⟨"j1", "/tmp", true, Except.ok (JVal.obj [("status", JVal.s "done")]),
      Except.ok (JVal.arr [JVal.obj [("file_id", JVal.s "f1")]]),
      fun _ => some 4⟩).1 =
      DlResult.ok "Downloaded 1 files to /tmp/task_j1" "j1" "/tmp/task_j1"
        [⟨"unknown_file_f1", "/tmp/task_j1/unknown_file_f1", JVal.s "f1", 4⟩] 1 4 ∧
    "unknown_file_f1" ≠ "file_f1" := ⟨rfl, by decide⟩

/-- C9 as amended: a dict entry with absent name defaults to
`unknown_file_<id>` (the bare-string entry shape does get `file_<id>`);
entries of unrecognized shape or with a missing or falsy file id are
skipped while the remaining entries are still processed. -/
theorem entry_names_and_skips
    (tf id : String) (fr : JVal → Option Nat) (fields : List (String × JVal))
    (size : Nat) :
    (dictGet fields "file_id" = some (JVal.s id) →
      dictGet fields "file_name" = none → id ≠ "" → fr (JVal.s id) = some size →
      procEntry tf fr (JVal.obj fields) =
        some ⟨"unknown_file_" ++ id, pyJoin tf ("unknown_file_" ++ id),
          JVal.s id, size⟩) ∧
    (id ≠ "" → fr (JVal.s id) = some size →
      procEntry tf fr (JVal.s id) =
        some ⟨"file_" ++ id, pyJoin tf ("file_" ++ id), JVal.s id, size⟩) ∧
    (∀ k : Int, procEntry tf fr (JVal.n k) = none) ∧
    (procEntry tf fr JVal.null = none) ∧
    (dictGet fields "file_id" = none → procEntry tf fr (JVal.obj fields) = none) ∧
    (dictGet fields "file_id" = some (JVal.s "") →
      procEntry tf fr (JVal.obj fields) = none) ∧
    (∀ pre e post, procEntry tf fr e = none →
      downloadedFiles tf fr (pre ++ e :: post) =
        downloadedFiles tf fr pre ++ downloadedFiles tf fr post) := by
  refine ⟨?_, ?_, fun k => rfl, rfl, ?_, ?_, ?_⟩
  · intro h1 h2 hne hfr
    have hdata : id.data.isEmpty = false := by
      cases hd : id.data with
      | nil => exact absurd ((string_eq_empty_iff_data id).2 hd) hne
      | cons a as => rfl
    simp [procEntry, entryIdName, h1, h2, jFalsy, hdata, hfr, pyStrOpt, pyStr]
  · intro hne hfr
    have hdata : id.data.isEmpty = false := by
      cases hd : id.data with
      | nil => exact absurd ((string_eq_empty_iff_data id).2 hd) hne
      | cons a as => rfl
    simp [procEntry, entryIdName, jFalsy, hdata, hfr]
  · intro h
    simp [procEntry, entryIdName, h]
  · intro h
    simp [procEntry, entryIdName, h, jFalsy]
  · intro pre e post hnone
    simp only [downloadedFiles, List.filterMap_append, List.filterMap_cons, hnone]

/-- Witness for C9 at concrete inputs: dict entry without a name, bare
string entry, and a skipped `None` entry that does not stop the entry after
it. -/
theorem entry_names_and_skips_witness :
    procEntry "/tmp/task_j9" (fun _ => some 7) (JVal.obj [("file_id", JVal.s "f9")]) =
      some ⟨"unknown_file_f9", "/tmp/task_j9/unknown_file_f9", JVal.s "f9", 7⟩ ∧
    procEntry "/tmp/task_j9" (fun _ => some 7) (JVal.s "f9") =
      some ⟨"file_f9", "/tmp/task_j9/file_f9", JVal.s "f9", 7⟩ ∧
    downloadedFiles "/tmp/task_j9" (fun _ => some 7) [JVal.null, JVal.s "f9"] =
      downloadedFiles "/tmp/task_j9" (fun _ => some 7) [] ++
        downloadedFiles "/tmp/task_j9" (fun _ => some 7) [JVal.s "f9"] := by
  have h := entry_names_and_skips "/tmp/task_j9" "f9" (fun _ => some 7)
    [("file_id", JVal.s "f9")] 7
  refine ⟨?_, ?_, ?_⟩
  · rw [h.1 rfl rfl (by decide) rfl]
    rfl
  · rw [h.2.1 (by decide) rfl]
    rfl
  · exact h.2.2.2.2.2.2 [] JVal.null [JVal.s "f9"] rfl

/-- String append is associative. -/
theorem str_append_assoc (a b c : String) : a ++ b ++ c = a ++ (b ++ c) := by
  cases a with
  | mk la =>
    cases b with
    | mk lb =>
      cases c with
      | mk lc =>
        show String.mk ((la ++ lb) ++ lc) = String.mk (la ++ (lb ++ lc))
        exact congrArg String.mk (List.append_assoc la lb lc)

/-- `os.path.join` keeps the first component as a prefix whenever the second
component is not absolute. -/
theorem pyJoin_prefix (a b : String) (hb : strStartsWith b "/" = false) :
    strStartsWith (pyJoin a b) a = true := by
  unfold pyJoin
  simp only [hb, Bool.false_eq_true, if_false]
  by_cases hc : a.data = [] ∨ a.data.getLast? = some '/'
  · rw [if_pos hc]
    exact strStartsWith_append_self a b
  · rw [if_neg hc]
    rw [str_append_assoc]
    exact strStartsWith_append_self a ("/" ++ b)

/-- A recorded download entry's path is always the join of the task folder
and its recorded name. -/
theorem procEntry_path (tf : String) (fr : JVal → Option Nat) (e : JVal)
    (f : DFile) (h : procEntry tf fr e = some f) :
    f.filePath = pyJoin tf f.fileName := by
  unfold procEntry at h
  repeat'
    first
      | exact Option.noConfusion h
      | (injection h with h3
         subst h3
         rfl)
      | split at h

/-- Inversion of a successful `dlAfterUnwrap`: the result's identifiers come
from the arguments and the files list is the download loop's accumulator
over some entry list. -/
theorem dlAfterUnwrap_ok (tid tf : String) (fr : JVal → Option Nat)
    (u : Except String JVal) (msg tid2 folder : String) (files : List DFile)
    (cnt tot : Nat) (eff : Effects)
    (h : dlAfterUnwrap tid tf fr u = (DlResult.ok msg tid2 folder files cnt tot, eff)) :
    tid2 = tid ∧ folder = tf ∧ cnt = files.length ∧ tot = sumSizes files ∧
    ∃ entries, files = downloadedFiles tf fr entries := by
  cases u with
  | error m => simp [dlAfterUnwrap] at h
  | ok bfiles =>
    cases hb : jFalsy bfiles with
    | true => simp [dlAfterUnwrap, hb] at h
    | false =>
      cases hit : toIterList bfiles with
      | error m => simp [dlAfterUnwrap, hb, hit] at h
      | ok entries =>
        cases hemp : (downloadedFiles tf fr entries).isEmpty with
        | true => simp [dlAfterUnwrap, hb, hit, hemp] at h
        | false =>
          simp only [dlAfterUnwrap, hb, hit, hemp, Bool.false_eq_true, if_false,
            Prod.mk.injEq, DlResult.ok.injEq] at h
          obtain ⟨⟨hmsg, htid, hfolder, hfiles, hcnt, htot⟩, heff⟩ := h
          subst htid hfolder hfiles
          exact ⟨rfl, rfl, hcnt.symm, htot.symm, entries, rfl⟩

/-- C10 as amended: every success result of `_download_task` is internally
consistent — `file_count` is the length of the files list, `total_size` the
sum of their recorded sizes, `download_folder` the per-job task folder,
`task_id` the job identifier — and each listed file's path is the join of
that folder with its name, which stays inside the folder whenever the
(remote-supplied) file name is not an absolute path. -/
theorem download_result_internally_consistent
    (env : DlEnv) (msg tid folder : String) (files : List DFile)
    (cnt tot : Nat) (eff : Effects)
    (h : downloadTask env = (DlResult.ok msg tid folder files cnt tot, eff)) :
    cnt = files.length ∧ tot = sumSizes files ∧ folder = taskFolderOf env ∧
    tid = env.taskId ∧
    ∀ f ∈ files, f.filePath = pyJoin folder f.fileName ∧
      (strStartsWith f.fileName "/" = false →
        strStartsWith f.filePath folder = true) := by
  obtain ⟨tid0, out0, isDir0, sresp, bresp, fr0⟩ := env
  cases sresp with
  | error m => simp [downloadTask] at h
  | ok sj =>
    cases sj with
    | s x => simp [downloadTask] at h
    | n x => simp [downloadTask] at h
    | arr x => simp [downloadTask] at h
    | null => simp [downloadTask] at h
    | obj sfields =>
      cases hdone : isDoneVal (dictGet sfields "status") with
      | false => simp [downloadTask, hdone] at h
      | true =>
        cases bresp with
        | error m => simp [downloadTask, hdone] at h
        | ok bj =>
          simp only [downloadTask, hdone, eq_self_iff_true, if_true] at h
          obtain ⟨htid2, hfolder, hcnt, htot, entries, hfiles⟩ :=
            dlAfterUnwrap_ok _ _ _ _ _ _ _ _ _ _ _ h
          subst htid2 hfolder
          refine ⟨hcnt, htot, rfl, rfl, ?_⟩
          intro f hf
          rw [hfiles] at hf
          simp only [downloadedFiles] at hf
          obtain ⟨e, he, hpe⟩ := List.mem_filterMap.1 hf
          have hpath := procEntry_path _ _ _ _ hpe
          refine ⟨hpath, fun hrel => ?_⟩
          rw [hpath]
          exact pyJoin_prefix _ _ hrel

/-- Witness for C10 at a concrete two-file success: count, size, folder and
per-file path facts all evaluated. -/
theorem download_result_internally_consistent_witness :
    (2 : Nat) = ([⟨"a.csv", "/tmp/task_j1/a.csv", JVal.s "f1", 3⟩,
      ⟨"c.csv", "/tmp/task_j1/c.csv", JVal.s "f3", 3⟩] : List DFile).length ∧
    (6 : Nat) = sumSizes [⟨"a.csv", "/tmp/task_j1/a.csv", JVal.s "f1", 3⟩,
      ⟨"c.csv", "/tmp/task_j1/c.csv", JVal.s "f3", 3⟩] ∧
    "/tmp/task_j1" = taskFolderOf ⟨"j1", "/tmp", true,
      Except.ok (JVal.obj [("status", JVal.s "done")]),
      Except.ok (JVal.arr
        [JVal.obj [("file_id", JVal.s "f1"), ("file_name", JVal.s "a.csv")],
         JVal.obj [("file_id", JVal.s "f3"), ("file_name", JVal.s "c.csv")]]),
      fun _ => some 3⟩ ∧
    "/tmp/task_j1/a.csv" = pyJoin "/tmp/task_j1" "a.csv" ∧
    strStartsWith "/tmp/task_j1/a.csv" "/tmp/task_j1" = true := by
  have h := download_result_internally_consistent
    ⟨"j1", "/tmp", true, Except.ok (JVal.obj [("status", JVal.s "done")]),
      Except.ok (JVal.arr
        [JVal.obj [("file_id", JVal.s "f1"), ("file_name", JVal.s "a.csv")],
         JVal.obj [("file_id", JVal.s "f3"), ("file_name", JVal.s "c.csv")]]),
      fun _ => some 3⟩
    "Downloaded 2 files to /tmp/task_j1" "j1" "/tmp/task_j1"
    [⟨"a.csv", "/tmp/task_j1/a.csv", JVal.s "f1", 3⟩,
     ⟨"c.csv", "/tmp/task_j1/c.csv", JVal.s "f3", 3⟩] 2 6 ⟨1, 1, 2, 0, 0, 1⟩ rfl
  have hf := h.2.2.2.2 ⟨"a.csv", "/tmp/task_j1/a.csv", JVal.s "f1", 3⟩ (by simp)
  exact ⟨h.1, h.2.1, h.2.2.1, hf.1, hf.2 (by decide)⟩

/-- Counterexample to C10: a bundle entry whose remote-supplied file name is
the absolute path `/evil` produces a success result whose listed file path
is `/evil` — `os.path.join` discards the task folder for an absolute second
component, so the path does not lie inside `task_<job_id>`. -/
theorem absolute_file_name_escapes_folder :
    (downloadTask ⟨"j1", "/tmp", true, Except.ok (JVal.obj [("status", JVal.s "done")]),
      Except.ok (JVal.arr
        [JVal.obj [("file_id", JVal.s "f1"), ("file_name", JVal.s "/evil")]]),
      fun _ => some 5⟩).1 =
      DlResult.ok "Downloaded 1 files to /tmp/task_j1" "j1" "/tmp/task_j1"
        [⟨"/evil", "/evil", JVal.s "f1", 5⟩] 1 5 ∧
    strStartsWith "/evil" "/tmp/task_j1" = false := ⟨rfl, by decide⟩
